import Mathlib

/-!  Verification of the ViralVision multi-stage AI orchestration pipeline.

Shallow embedding of the pipeline orchestrator in `src/App.tsx`
(`processFlow`, `handlePlatformChange`, `handleForgeThumbnail`, the
history load/persist effects and the vault recall handler) and of the AI
gateway response handling and request-text assembly in
`src/services/geminiService.ts` (`analyzeMedia`, `generateSEO`,
`generateThumbnailPrompts`, `generateNanoBananaImage`).

The generative backend and the JSON built-ins are external collaborators:
they are modelled as oracle parameters (a backend response is an
`Except String (Option String)`: network failure, or a response whose
`text` field may be absent; `JSON.parse` is an oracle
`String → Except String α`).  Each orchestrator operation returns, next
to the successor state, the list of gateway calls it made, in order, so
that call-count and call-argument properties can be stated.  -/

/-- The four target platforms (`src/types.ts`, `Platform`). -/
inductive Platform where
  | youTube
  | instagram
  | twitter
  | pinterest
  deriving DecidableEq, Repr

/-- The platform's name as it is interpolated into request texts. -/
def platformName : Platform → String
  | .youTube => "YouTube"
  | .instagram => "Instagram"
  | .twitter => "Twitter"
  | .pinterest => "Pinterest"

/-- One flagged sensitive topic (`src/types.ts`, `Controversy`). -/
structure Controversy where
  topic : String
  explanation : String
  deriving DecidableEq, Repr

/-- The first stage's result (`src/types.ts`, `AnalysisResult`). -/
structure AnalysisResult where
  summary : String
  category : String
  mood : String
  sentiment : String
  controversies : List Controversy
  keyScenes : List String
  deriving DecidableEq, Repr

/-- One hook variation (`src/types.ts`, `HookVariation`). -/
structure HookVariation where
  text : String
  explanation : String
  deriving DecidableEq, Repr

/-- The second stage's result (`src/types.ts`, `SEOData`). -/
structure SEOData where
  hooks : List HookVariation
  title : String
  description : String
  keywords : List String
  hashtags : List String
  deriving DecidableEq, Repr

/-- One thumbnail concept (`src/types.ts`, `ThumbnailConcept`). -/
structure ThumbnailConcept where
  prompt : String
  style : String
  deriving DecidableEq, Repr

/-- The third stage's parsed response shape
(`{ concepts: ThumbnailConcept[] }` in `generateThumbnailPrompts`). -/
structure ThumbResponse where
  concepts : List ThumbnailConcept
  deriving DecidableEq, Repr

/-- The media kind, derived from the MIME type prefix in `processFlow`. -/
inductive MediaType where
  | image
  | video
  deriving DecidableEq, Repr

/-- One committed run (`src/types.ts`, `HistoryItem`).  `seo` and
`thumbnailConcepts` are optional fields in the source interface. -/
structure HistoryItem where
  id : String
  timestamp : Nat
  mediaType : MediaType
  mediaSummary : String
  platform : Platform
  seo : Option SEOData
  thumbnailConcepts : Option (List ThumbnailConcept)
  analysis : AnalysisResult
  deriving DecidableEq, Repr

/-- The `loadingStep` phase state of `App` (`src/App.tsx`, line 26). -/
inductive LoadingStep where
  | idle
  | analyzing
  | optimizing
  | visualizing
  deriving DecidableEq, Repr

/-- The mutable state held by `App` (`src/App.tsx`, lines 25-35), with the
purely presentational pieces (`file`, `preview`, `base64`, `showVault`)
left out.  `history` is the HistoryLog. -/
structure AppState where
  mediaType : Option MediaType
  loadingStep : LoadingStep
  analysis : Option AnalysisResult
  platform : Platform
  seo : Option SEOData
  thumbnailConcepts : List ThumbnailConcept
  generatedThumbnail : Option String
  activePrompt : Option String
  genImgLoading : Bool
  history : List HistoryItem
  deriving DecidableEq, Repr

/-- The initial `useState` values of `App` (`src/App.tsx`, lines 25-35). -/
def initialState : AppState where
  mediaType := none
  loadingStep := .idle
  analysis := none
  platform := .youTube
  seo := none
  thumbnailConcepts := []
  generatedThumbnail := none
  activePrompt := none
  genImgLoading := false
  history := []

/-- One gateway call, with the arguments the orchestrator passed to it.
The analysis call's arguments (the encoded media) are not tracked: no
claim mentions them. -/
inductive Call where
  | analyze
  | seoGen (analysis : AnalysisResult) (platform : Platform)
  | thumbGen (analysis : AnalysisResult)
  | render (prompt : String)
  deriving DecidableEq, Repr

/-- The history insertion of `processFlow` (`src/App.tsx`, line 98):
`setHistory(prev => [historyItem, ...prev].slice(0, 20))`. -/
def insertHistory (item : HistoryItem) (prev : List HistoryItem) : List HistoryItem :=
  (item :: prev).take 20

/-- The `historyItem` record assembled in `processFlow`
(`src/App.tsx`, lines 88-97).  `Date.now()` is passed in as `now`;
`id` is its decimal rendering (`Date.now().toString()`). -/
def mkHistoryItem (now : Nat) (mediaType : MediaType) (selectedPlatform : Platform)
    (analysisRes : AnalysisResult) (seoRes : SEOData)
    (concepts : List ThumbnailConcept) : HistoryItem where
  id := toString now
  timestamp := now
  mediaType := mediaType
  mediaSummary := analysisRes.summary
  platform := selectedPlatform
  seo := some seoRes
  thumbnailConcepts := some concepts
  analysis := analysisRes

/-- `processFlow` (`src/App.tsx`, lines 60-105), from the point where the
media is encoded.  The three stage calls are oracles: `analyzeRes` is the
settled result of `analyzeMedia(base64, file.type)`, `seoGen` and
`thumbGen` map the arguments the orchestrator passes to the settled
results of `generateSEO` and `generateThumbnailPrompts`.  The `try`
block's effects are applied in program order; a stage rejection jumps to
the `catch` (which only logs) and then the `finally` sets the phase to
`idle`.  Returns the successor state and the gateway calls made, in
order. -/
def processFlow (st : AppState) (mediaType : MediaType) (selectedPlatform : Platform)
    (now : Nat) (analyzeRes : Except String AnalysisResult)
    (seoGen : AnalysisResult → Platform → Except String SEOData)
    (thumbGen : AnalysisResult → Except String ThumbResponse) :
    AppState × List Call :=
  let st0 : AppState :=
    { st with mediaType := some mediaType, analysis := none, seo := none,
              thumbnailConcepts := [], generatedThumbnail := none }
  let st1 : AppState := { st0 with loadingStep := .analyzing }
  match analyzeRes with
  | .error _ => ({ st1 with loadingStep := .idle }, [.analyze])
  | .ok analysisRes =>
    let st2 : AppState := { st1 with analysis := some analysisRes, loadingStep := .optimizing }
    match seoGen analysisRes selectedPlatform with
    | .error _ =>
        ({ st2 with loadingStep := .idle }, [.analyze, .seoGen analysisRes selectedPlatform])
    | .ok seoRes =>
      let st3 : AppState := { st2 with seo := some seoRes, loadingStep := .visualizing }
      match thumbGen analysisRes with
      | .error _ =>
          ({ st3 with loadingStep := .idle },
           [.analyze, .seoGen analysisRes selectedPlatform, .thumbGen analysisRes])
      | .ok thumbRes =>
          ({ st3 with thumbnailConcepts := thumbRes.concepts,
                      history := insertHistory
                        (mkHistoryItem now mediaType selectedPlatform analysisRes seoRes
                          thumbRes.concepts) st3.history,
                      loadingStep := .idle },
           [.analyze, .seoGen analysisRes selectedPlatform, .thumbGen analysisRes])

/-- `handlePlatformChange` (`src/App.tsx`, lines 107-115).  `setPlatform`
runs unconditionally; the SEO call runs only when an analysis is held.
There is no `try`/`catch`/`finally` here: if `generateSEO` rejects, the
async handler exits before `setSeo` and before `setLoadingStep('idle')`,
so the phase is left at `optimizing` and `seo` keeps its old value. -/
def handlePlatformChange (st : AppState) (newPlatform : Platform)
    (seoGen : AnalysisResult → Platform → Except String SEOData) :
    AppState × List Call :=
  let st0 : AppState := { st with platform := newPlatform }
  match st0.analysis with
  | none => (st0, [])
  | some a =>
    let st1 : AppState := { st0 with loadingStep := .optimizing }
    match seoGen a newPlatform with
    | .ok seoRes =>
        ({ st1 with seo := some seoRes, loadingStep := .idle }, [.seoGen a newPlatform])
    | .error _ => (st1, [.seoGen a newPlatform])

/-- `handleForgeThumbnail` (`src/App.tsx`, lines 117-128).  The loading
flag and the active prompt are set before the render call; the `catch`
only logs, and the `finally` clears the loading flag on both paths. -/
def handleForgeThumbnail (st : AppState) (prompt : String)
    (render : String → Except String String) : AppState × List Call :=
  let st0 : AppState := { st with genImgLoading := true, activePrompt := some prompt }
  match render prompt with
  | .ok img =>
      ({ st0 with generatedThumbnail := some img, genImgLoading := false }, [.render prompt])
  | .error _ => ({ st0 with genImgLoading := false }, [.render prompt])

/-- The vault recall handler (`src/App.tsx`, lines 428-434): clicking a
history item restores its results (`item.seo || null`,
`item.thumbnailConcepts || []`) and its platform; history itself is not
touched. -/
def recallRun (st : AppState) (item : HistoryItem) : AppState :=
  { st with analysis := some item.analysis,
            seo := item.seo,
            thumbnailConcepts := item.thumbnailConcepts.getD [],
            platform := item.platform }

/-- The history load effect (`src/App.tsx`, lines 39-42):
`const saved = localStorage.getItem('viralvision_v2'); if (saved)
setHistory(JSON.parse(saved))`.  `saved` is `none` when no blob exists;
a present but empty string is falsy and is also skipped.  `JSON.parse`
is an oracle; there is no `try`/`catch`, so a parse failure propagates
out of the effect (`setHistory` is never reached). -/
def loadHistoryEffect (st : AppState) (saved : Option String)
    (parse : String → Except String (List HistoryItem)) : Except String AppState :=
  match saved with
  | none => .ok st
  | some s =>
    if s = "" then .ok st
    else
      match parse s with
      | .ok h => .ok { st with history := h }
      | .error e => .error e

/-- The in-session reachable states of `App`: the initial render followed
by any interleaving of the four user operations (submit-media, platform
change, forge-thumbnail, vault recall), with arbitrary oracle outcomes.
The submit step records that `Date.now()` is no older than every
timestamp already in the log. -/
inductive Reachable : AppState → Prop where
  | init : Reachable initialState
  | submit {st : AppState} (mediaType : MediaType) (selectedPlatform : Platform)
      (now : Nat) (analyzeRes : Except String AnalysisResult)
      (seoGen : AnalysisResult → Platform → Except String SEOData)
      (thumbGen : AnalysisResult → Except String ThumbResponse)
      (h : Reachable st) (hnow : ∀ it ∈ st.history, it.timestamp ≤ now) :
      Reachable (processFlow st mediaType selectedPlatform now analyzeRes seoGen thumbGen).1
  | platformChange {st : AppState} (newPlatform : Platform)
      (seoGen : AnalysisResult → Platform → Except String SEOData)
      (h : Reachable st) :
      Reachable (handlePlatformChange st newPlatform seoGen).1
  | forge {st : AppState} (prompt : String) (render : String → Except String String)
      (h : Reachable st) :
      Reachable (handleForgeThumbnail st prompt render).1
  | vaultRecall {st : AppState} (item : HistoryItem) (h : Reachable st) :
      Reachable (recallRun st item)

/-- Newest-first ordering of the HistoryLog: timestamps never increase
along the list. -/
def historySorted (h : List HistoryItem) : Prop :=
  List.Chain' (fun a b => b.timestamp ≤ a.timestamp) h

/-- The JavaScript `x || dflt` applied to a response's optional `text`
field: `undefined` and the empty string are falsy and give the default. -/
def effectiveText (t : Option String) (dflt : String) : String :=
  match t with
  | none => dflt
  | some s => if s = "" then dflt else s

/-- The default literal of `analyzeMedia` and `generateSEO`
(`response.text || '\x7b\x7d'`). -/
def emptyObjectText : String := "\x7b\x7d"

/-- The default literal of `generateThumbnailPrompts`
(`response.text || '\x7b"concepts":[]\x7d'`). -/
def thumbEmptyDefault : String := "\x7b\"concepts\":[]\x7d"

/-- The response handling of `analyzeMedia`
(`src/services/geminiService.ts`, line 56):
`return JSON.parse(response.text || '\x7b\x7d')`.  `response` is the
settled backend round trip (`Except.error` for a network or API
rejection); `parse` is the `JSON.parse` oracle, generic in the parsed
shape `α` since the source casts the untyped parse result. -/
def analyzeMedia {α : Type} (parse : String → Except String α)
    (response : Except String (Option String)) : Except String α :=
  match response with
  | .error e => .error e
  | .ok t => parse (effectiveText t emptyObjectText)

/-- `scenesContext` of `generateSEO` (`src/services/geminiService.ts`,
line 60): `analysis.keyScenes.join('; ')`. -/
def seoScenesContext (analysis : AnalysisResult) : String :=
  String.intercalate "; " analysis.keyScenes

/-- `controversyContext` of `generateSEO` (`src/services/geminiService.ts`,
lines 61-63): a note naming the flagged topics when `controversies` is
non-empty, the empty string otherwise. -/
def controversyContext (analysis : AnalysisResult) : String :=
  if analysis.controversies.length > 0 then
    "Note: Content touches on sensitive topics: "
      ++ String.intercalate ", " (analysis.controversies.map (fun c => c.topic)) ++ "."
  else ""

/-- The `platformStrategies` table of `generateSEO`
(`src/services/geminiService.ts`, lines 65-70). -/
def platformStrategies : Platform → String
  | .youTube => "Focus on high curiosity gaps, storytelling stakes, and \"The Mistake\" hooks. Use punchy, dramatic language designed to stop the scroll. Titles should be optimized for Click-Through Rate (CTR)."
  | .instagram => "Focus on aesthetic descriptors, emotive connection, and \"The Save/Share\" hooks. Use emojis strategically and keep the language visually evocative. Hooks should be shorter to fit the first 2-3 lines of a caption."
  | .twitter => "Focus on provocative statements, contrarian takes, or data-driven curiosity. Use \"Thread Style\" hooks that force the user to click \"See More\". Language should be sharp, intellectual, or highly controversial."
  | .pinterest => "Focus on aspirational \"best of\" lists, how-to value, and \"The Transformation\" hooks. Use keyword-rich language that sounds like a search query. Visual aesthetics are key in descriptions."

/-- The part of the `generateSEO` request template
(`src/services/geminiService.ts`, lines 72-73) that stands before the
interpolated `controversyContext`. -/
def seoPromptPre (analysis : AnalysisResult) : String :=
  "Based on this analysis: \"" ++ analysis.summary ++ "\" (" ++ analysis.category
    ++ ", " ++ analysis.mood ++ " mood, " ++ analysis.sentiment ++ " sentiment). \n  Highlights: "
    ++ seoScenesContext analysis ++ ". "

/-- The part of the `generateSEO` request template
(`src/services/geminiService.ts`, lines 73-85) that stands after the
interpolated `controversyContext`. -/
def seoPromptPost (platform : Platform) : String :=
  "\n  \n  Generate a viral SEO package specifically optimized for " ++ platformName platform
    ++ ".\n  Strategy for " ++ platformName platform ++ ": " ++ platformStrategies platform
    ++ "\n  \n  MANDATORY REQUIREMENTS:\n  1. Generate 3 different 'working hook' variations. Each hook MUST follow a specific psychological trigger (e.g., Negative Constraint, Outcome-First, Pattern Interrupt).\n  2. For each hook, provide a \"Strategic Insight\" explaining why this specific variation works on "
    ++ platformName platform ++ ".\n  3. A viral title optimized for " ++ platformName platform
    ++ " algorithms.\n  4. A platform-native SEO description (YouTube should be long, Twitter should be punchy).\n  5. 10 highly relevant keywords and 10 trending hashtags for "
    ++ platformName platform ++ ".\n  \n  Output as JSON."

/-- The full request text built by `generateSEO`
(`src/services/geminiService.ts`, lines 72-85): the template with
`scenesContext` and `controversyContext` interpolated. -/
def seoRequestText (analysis : AnalysisResult) (platform : Platform) : String :=
  seoPromptPre analysis ++ controversyContext analysis ++ seoPromptPost platform

/-- The response handling of `generateSEO`
(`src/services/geminiService.ts`, line 116):
`return JSON.parse(response.text || '\x7b\x7d')`. -/
def generateSEOResponse {α : Type} (parse : String → Except String α)
    (response : Except String (Option String)) : Except String α :=
  match response with
  | .error e => .error e
  | .ok t => parse (effectiveText t emptyObjectText)

/-- The ten mandated style lines of the `generateThumbnailPrompts`
request template (`src/services/geminiService.ts`, lines 125-134):
style name paired with its descriptor text. -/
def thumbStyleLines : List (String × String) :=
  [("Hyperrealistic CGI", "Unreal Engine 5, Octane render, intricate details, ray-tracing."),
   ("Cinematic Lighting", "Dramatic noir shadows, volumetric god rays, anamorphic lens flares."),
   ("Retro VHS", "90s aesthetic, tracking lines, color bleed, lo-fi glitch."),
   ("Minimalist Flat", "Clean vector lines, bold flat colors, modern typography integration."),
   ("Surreal Abstract", "Liquid metal textures, impossible geometry, neon ethereal glows."),
   ("Documentary Raw", "Grainy film stock, high ISO, handheld shaky-cam look, authentic."),
   ("Glitchcore", "Distorted digital artifacts, vibrant clashing colors, pixelation, data-moshing vibes, hyper-saturated."),
   ("Cyberpunk Neon", "Dystopian high-tech, rain-slicked futuristic streets, glowing cyan and magenta signage, techwear fashion."),
   ("Pastel Goth", "Cute meets creepy, soft pink and lavender palettes paired with dark gothic motifs, bats, lace, and eerie symbols."),
   ("Lo-fi Anime Aesthetic", "90s retro anime style, soft film grain, cozy interior lighting, city pop color palettes, nostalgic atmosphere.")]

/-- The fixed 10-value style enumeration: the names mandated by the
request template. -/
def thumbStyles : List String := thumbStyleLines.map Prod.fst

/-- One line of the style block: `  - 'Name': descriptor`. -/
def styleLine (sd : String × String) : String :=
  "  - '" ++ sd.1 ++ "': " ++ sd.2

/-- The newline-separated lines of a style table. -/
def styleBlockOf : List (String × String) → String
  | [] => ""
  | [sd] => styleLine sd
  | sd :: rest => styleLine sd ++ "\n" ++ styleBlockOf rest

/-- The style block of the `generateThumbnailPrompts` request template:
the ten `  - 'Name': descriptor` lines, newline separated. -/
def thumbStylesBlock : String := styleBlockOf thumbStyleLines

/-- The part of the `generateThumbnailPrompts` request template
(`src/services/geminiService.ts`, lines 121-124) before the style
block, with `analysis.summary` and `scenesContext`
(`analysis.keyScenes.join(', ')`) interpolated. -/
def thumbPromptPre (analysis : AnalysisResult) : String :=
  "Generate 10 dramatic, ultra-clickbait thumbnail prompt ideas for an AI image generator (Nano Banana) based on: \""
    ++ analysis.summary ++ "\".\n  Highlights: " ++ String.intercalate ", " analysis.keyScenes
    ++ ".\n  \n  MANDATORY REQUIREMENT: Provide a diverse range of visual aesthetics. You must include at least one prompt for each of these styles:\n"

/-- The part of the `generateThumbnailPrompts` request template
(`src/services/geminiService.ts`, lines 135-137) after the style
block. -/
def thumbPromptPost : String :=
  "\n  \n  Each prompt should be 2-3 sentences long, describing the scene with technical image generation keywords.\n  Output as a JSON object with a 'concepts' array containing objects with 'prompt' and 'style' fields."

/-- The full request text built by `generateThumbnailPrompts`
(`src/services/geminiService.ts`, lines 121-137). -/
def thumbRequestText (analysis : AnalysisResult) : String :=
  thumbPromptPre analysis ++ thumbStylesBlock ++ thumbPromptPost

/-- The response handling of `generateThumbnailPrompts`
(`src/services/geminiService.ts`, line 164):
`return JSON.parse(response.text || '\x7b"concepts":[]\x7d')`.  The
parsed value is returned as-is: the count and the style coverage of the
concepts are not validated. -/
def generateThumbnailPrompts (parse : String → Except String ThumbResponse)
    (response : Except String (Option String)) : Except String ThumbResponse :=
  match response with
  | .error e => .error e
  | .ok t => parse (effectiveText t thumbEmptyDefault)

/-- One entry of `response.candidates[0].content.parts` as
`generateNanoBananaImage` inspects it: `inlineData` present (carrying
its base64 `data`) or absent. -/
structure RenderPart where
  inlineData : Option String
  deriving DecidableEq, Repr

/-- `generateNanoBananaImage` (`src/services/geminiService.ts`, lines
167-186).  `parts` is `response.candidates?.[0]?.content?.parts`
(`none` when candidates or content are missing).  The first part with
inline data yields the data URI; otherwise the fixed hard error
`"No image generated"` is thrown.  No retry is performed. -/
def generateNanoBananaImage (parts : Option (List RenderPart)) : Except String String :=
  match (parts.getD []).find? (fun p => p.inlineData.isSome) with
  | some part =>
    match part.inlineData with
    | some d => .ok ("data:image/png;base64," ++ d)
    | none => .error "No image generated"
  | none => .error "No image generated"

/-- Substring occurrence, at the character-list level. -/
def occursIn (needle hay : String) : Prop :=
  needle.data <:+: hay.data

/-- A concrete analysis result, used to instantiate theorems. -/
def sampleAnalysis : AnalysisResult where
  summary := "A fast-paced gadget teardown."
  category := "Tech"
  mood := "High-energy"
  sentiment := "Highly Positive"
  controversies := []
  keyScenes := ["opening shot", "the reveal"]

/-- A concrete SEO package, used to instantiate theorems. -/
def sampleSeo : SEOData where
  hooks := [⟨"You are using it wrong.", "Negative Constraint"⟩]
  title := "The teardown they did not want you to see"
  description := "A deep dive."
  keywords := ["gadget"]
  hashtags := ["#tech"]

/-- A concrete thumbnail concept, used to instantiate theorems. -/
def sampleConcept : ThumbnailConcept where
  prompt := "A neon-lit workbench, rain-slicked window behind."
  style := "Cyberpunk Neon"

/-- A concrete committed run record, used to instantiate theorems. -/
def sampleItem : HistoryItem :=
  mkHistoryItem 5 MediaType.image Platform.youTube sampleAnalysis sampleSeo [sampleConcept]

/-- A state holding an analysis and an SEO package, as after a completed
run; used to instantiate theorems. -/
def stWithAnalysis : AppState :=
  { initialState with analysis := some sampleAnalysis, seo := some sampleSeo }

/-- An SEO-stage oracle that always rejects (a network failure). -/
def failSeoGen : AnalysisResult → Platform → Except String SEOData :=
  fun _ _ => .error "network failure"

/-- An SEO-stage oracle that always resolves with `sampleSeo`. -/
def okSeoGen : AnalysisResult → Platform → Except String SEOData :=
  fun _ _ => .ok sampleSeo

/-- A `JSON.parse` oracle for the history blob that always throws. -/
def failParse : String → Except String (List HistoryItem) :=
  fun _ => .error "SyntaxError: Unexpected token"

/-- A `JSON.parse` oracle for the history blob that always yields one
record. -/
def okParse : String → Except String (List HistoryItem) :=
  fun _ => .ok [sampleItem]

/-- A stored blob that is not valid JSON. -/
def badBlob : String := "not json"

/-- A `JSON.parse` oracle that recognises only the empty-object literal,
as the builtin does on `'\x7b\x7d'` (the parsed shape taken as `Nat` for
concreteness). -/
def parseEmptyOnly : String → Except String Nat :=
  fun s => if s = emptyObjectText then .ok 0 else .error "SyntaxError"

/-- A `JSON.parse` oracle that recognises only the default
`'\x7b"concepts":[]\x7d'` literal, as the builtin does: it parses to an
empty concepts array. -/
def parseDefaultEmpty : String → Except String ThumbResponse :=
  fun s => if s = thumbEmptyDefault then .ok ⟨[]⟩ else .error "SyntaxError"

/-- A three-element concept batch. -/
def threeConcepts : List ThumbnailConcept :=
  [⟨"a shocked face", "Glitchcore"⟩, ⟨"a crt monitor", "Retro VHS"⟩,
   ⟨"lace and bats", "Pastel Goth"⟩]

/-- A thumbnail-stage `JSON.parse` oracle whose response parses to three
concepts. -/
def parseThree : String → Except String ThumbResponse :=
  fun _ => .ok ⟨threeConcepts⟩

/-- A render-response part carrying no inline image data. -/
def emptyPart : RenderPart := ⟨none⟩

/-- Inserting keeps the HistoryLog at no more than 20 entries. -/
theorem insertHistory_length_le (item : HistoryItem) (prev : List HistoryItem) :
    (insertHistory item prev).length ≤ 20 := by
  simp only [insertHistory, List.length_take, List.length_cons]
  omega

/-- Inserting a record no older than every held record keeps the log
newest-first. -/
theorem insertHistory_sorted (item : HistoryItem) (prev : List HistoryItem)
    (hs : historySorted prev) (h : ∀ it ∈ prev, it.timestamp ≤ item.timestamp) :
    historySorted (insertHistory item prev) := by
  unfold historySorted insertHistory
  refine List.Chain'.take ?_ 20
  rw [List.chain'_cons']
  exact ⟨fun y hy => h y (List.mem_of_mem_head? hy), hs⟩

/-- A platform change never touches the HistoryLog. -/
theorem handlePlatformChange_history (st : AppState) (p : Platform)
    (seoGen : AnalysisResult → Platform → Except String SEOData) :
    (handlePlatformChange st p seoGen).1.history = st.history := by
  cases h : st.analysis with
  | none => simp [handlePlatformChange, h]
  | some a => cases hs : seoGen a p <;> simp [handlePlatformChange, h, hs]

/-- A forge-thumbnail operation never touches the HistoryLog. -/
theorem handleForgeThumbnail_history (st : AppState) (prompt : String)
    (render : String → Except String String) :
    (handleForgeThumbnail st prompt render).1.history = st.history := by
  cases h : render prompt <;> simp [handleForgeThumbnail, h]

/-- The HistoryLog invariant: every in-session reachable state holds at
most 20 records, newest-first. -/
theorem reachable_history_invariant {st : AppState} (h : Reachable st) :
    st.history.length ≤ 20 ∧ historySorted st.history := by
  induction h with
  | init => exact ⟨by simp [initialState], by simp [historySorted, initialState]⟩
  | submit mt p now aRes seoGen thumbGen hr hnow ih =>
      cases aRes with
      | error e => simpa [processFlow] using ih
      | ok a =>
        cases hs : seoGen a p with
        | error e => simpa [processFlow, hs] using ih
        | ok s =>
          cases ht : thumbGen a with
          | error e => simpa [processFlow, hs, ht] using ih
          | ok t =>
            constructor
            · simpa [processFlow, hs, ht] using insertHistory_length_le _ _
            · have hsorted := insertHistory_sorted (mkHistoryItem now mt p a s t.concepts)
                _ ih.2 (fun it hit => by simpa [mkHistoryItem] using hnow it hit)
              simpa [processFlow, hs, ht] using hsorted
  | platformChange p seoGen hr ih =>
      rw [handlePlatformChange_history]
      exact ih
  | forge prompt render hr ih =>
      rw [handleForgeThumbnail_history]
      exact ih
  | vaultRecall item hr ih => exact ih

/-- C1: for a run started by submit-media, a RunRecord is inserted at the
head of the HistoryLog iff all three stage calls (analysis, SEO,
thumbnail prompts) succeed in order; on any stage failure the phase
returns to idle, no later stage call is made, and the HistoryLog is
unchanged.  The phase is idle after every run. -/
theorem processFlow_commit_iff_all_stages_succeed
    (st : AppState) (mt : MediaType) (p : Platform) (now : Nat)
    (aRes : Except String AnalysisResult)
    (seoGen : AnalysisResult → Platform → Except String SEOData)
    (thumbGen : AnalysisResult → Except String ThumbResponse) :
    (processFlow st mt p now aRes seoGen thumbGen).1.loadingStep = LoadingStep.idle ∧
    match aRes with
    | .error _ =>
        (processFlow st mt p now aRes seoGen thumbGen).1.history = st.history ∧
        (processFlow st mt p now aRes seoGen thumbGen).2 = [Call.analyze]
    | .ok a =>
      match seoGen a p with
      | .error _ =>
          (processFlow st mt p now aRes seoGen thumbGen).1.history = st.history ∧
          (processFlow st mt p now aRes seoGen thumbGen).2 = [Call.analyze, Call.seoGen a p]
      | .ok s =>
        match thumbGen a with
        | .error _ =>
            (processFlow st mt p now aRes seoGen thumbGen).1.history = st.history ∧
            (processFlow st mt p now aRes seoGen thumbGen).2
              = [Call.analyze, Call.seoGen a p, Call.thumbGen a]
        | .ok t =>
            (processFlow st mt p now aRes seoGen thumbGen).1.history
              = insertHistory (mkHistoryItem now mt p a s t.concepts) st.history ∧
            (processFlow st mt p now aRes seoGen thumbGen).2
              = [Call.analyze, Call.seoGen a p, Call.thumbGen a] := by
  cases aRes with
  | error e => simp [processFlow]
  | ok a =>
    cases hs : seoGen a p with
    | error e => simp [processFlow, hs]
    | ok s =>
      cases ht : thumbGen a with
      | error e => simp [processFlow, hs, ht]
      | ok t => simp [processFlow, hs, ht]

/-- C2: every in-session reachable state holds at most 20 records,
newest-first; and inserting into a log already holding 20 records
prepends the new record and evicts exactly the oldest (the last) record,
keeping the remaining 19 in order. -/
theorem historyLog_bounded_and_eviction :
    (∀ st : AppState, Reachable st →
       st.history.length ≤ 20 ∧ historySorted st.history) ∧
    (∀ (item : HistoryItem) (prev : List HistoryItem), prev.length = 20 →
       insertHistory item prev = item :: prev.dropLast) := by
  constructor
  · exact fun st h => reachable_history_invariant h
  · intro item prev hlen
    rw [insertHistory, List.dropLast_eq_take prev, hlen,
        show (20 : Nat) = 19 + 1 from rfl, List.take_succ_cons]

/-- C2 witness: the invariant at the initial state, and eviction on a
concrete 20-record log. -/
theorem historyLog_bounded_and_eviction_witness :
    (initialState.history.length ≤ 20 ∧ historySorted initialState.history) ∧
    insertHistory sampleItem (List.replicate 20 sampleItem)
      = sampleItem :: (List.replicate 20 sampleItem).dropLast :=
  ⟨historyLog_bounded_and_eviction.1 initialState Reachable.init,
   historyLog_bounded_and_eviction.2 sampleItem (List.replicate 20 sampleItem) (by simp)⟩

/-- C3 counterexample: a platform change with an AnalysisResult held but
a failing SEO call does not replace the SEOPackage (the held package is
kept and the failing call yields no package to replace it with), and the
phase is left at optimizing instead of returning to idle. -/
theorem platformChange_failure_counterexample :
    (handlePlatformChange stWithAnalysis Platform.twitter failSeoGen).1.seo = some sampleSeo ∧
    (handlePlatformChange stWithAnalysis Platform.twitter failSeoGen).1.loadingStep
      = LoadingStep.optimizing ∧
    ¬ ∃ s : SEOData, failSeoGen sampleAnalysis Platform.twitter = Except.ok s ∧
        (handlePlatformChange stWithAnalysis Platform.twitter failSeoGen).1.seo = some s := by
  refine ⟨rfl, rfl, ?_⟩
  rintro ⟨s, hs, -⟩
  simp [failSeoGen] at hs

/-- C3 amended: a platform change with an AnalysisResult held makes
exactly one generateSEO call, with that analysis and the newly selected
platform; the AnalysisResult, the thumbnail-concept batch and the
HistoryLog are unchanged.  If the call succeeds the SEOPackage is
replaced by its result and the phase returns to idle; if it fails the
SEOPackage is unchanged and the phase is left at optimizing (the
rejection is unhandled). -/
theorem platformChange_single_seo_call (st : AppState) (a : AnalysisResult)
    (p : Platform) (seoGen : AnalysisResult → Platform → Except String SEOData)
    (ha : st.analysis = some a) :
    (handlePlatformChange st p seoGen).2 = [Call.seoGen a p] ∧
    (handlePlatformChange st p seoGen).1.analysis = st.analysis ∧
    (handlePlatformChange st p seoGen).1.thumbnailConcepts = st.thumbnailConcepts ∧
    (handlePlatformChange st p seoGen).1.history = st.history ∧
    (handlePlatformChange st p seoGen).1.platform = p ∧
    match seoGen a p with
    | .ok s =>
        (handlePlatformChange st p seoGen).1.seo = some s ∧
        (handlePlatformChange st p seoGen).1.loadingStep = LoadingStep.idle
    | .error _ =>
        (handlePlatformChange st p seoGen).1.seo = st.seo ∧
        (handlePlatformChange st p seoGen).1.loadingStep = LoadingStep.optimizing := by
  cases hs : seoGen a p <;> simp [handlePlatformChange, ha, hs]

/-- C3 witness: the amended theorem at a concrete state and a succeeding
oracle. -/
theorem platformChange_single_seo_call_witness :
    (handlePlatformChange stWithAnalysis Platform.twitter okSeoGen).2
      = [Call.seoGen sampleAnalysis Platform.twitter] :=
  (platformChange_single_seo_call stWithAnalysis sampleAnalysis Platform.twitter
    okSeoGen rfl).1

/-- C4 counterexample: when the stored blob fails to parse, the load
effect propagates the parse error; it does not produce a state holding
an empty (or any) HistoryLog. -/
theorem loadHistory_parse_failure_counterexample :
    loadHistoryEffect initialState (some badBlob) failParse
      = Except.error "SyntaxError: Unexpected token" ∧
    ¬ ∃ st' : AppState,
        loadHistoryEffect initialState (some badBlob) failParse = Except.ok st' := by
  refine ⟨rfl, ?_⟩
  rintro ⟨st', h⟩
  simp [loadHistoryEffect, badBlob, failParse] at h

/-- C4 amended: the load effect keeps the initial empty HistoryLog when
no persisted blob exists (or the stored string is empty), and a blob
that parses replaces the log with the parsed records; but a blob that
fails to parse propagates the parse error out of the load effect rather
than being treated as no history. -/
theorem loadHistory_spec (parse : String → Except String (List HistoryItem)) :
    loadHistoryEffect initialState none parse = Except.ok initialState ∧
    initialState.history = [] ∧
    (∀ (s : String) (h : List HistoryItem), s ≠ "" → parse s = Except.ok h →
       loadHistoryEffect initialState (some s) parse
         = Except.ok { initialState with history := h }) ∧
    (∀ (s e : String), s ≠ "" → parse s = Except.error e →
       loadHistoryEffect initialState (some s) parse = Except.error e) := by
  refine ⟨rfl, rfl, ?_, ?_⟩ <;>
    · intro s x hs hx
      simp [loadHistoryEffect, hs, hx]

/-- C4 witness: the amended theorem's parse-success branch at a concrete
blob and oracle. -/
theorem loadHistory_spec_witness :
    loadHistoryEffect initialState (some "[...]") okParse
      = Except.ok { initialState with history := [sampleItem] } :=
  (loadHistory_spec okParse).2.2.1 "[...]" [sampleItem] (by decide) rfl

/-- An occurrence in the left part survives appending on the right. -/
theorem occursIn_append_left {n a : String} (b : String) (h : occursIn n a) :
    occursIn n (a ++ b) := by
  unfold occursIn at *
  rw [String.data_append]
  exact h.trans ⟨[], b.data, by simp⟩

/-- An occurrence in the right part survives appending on the left. -/
theorem occursIn_append_right {n b : String} (a : String) (h : occursIn n b) :
    occursIn n (a ++ b) := by
  unfold occursIn at *
  rw [String.data_append]
  exact h.trans ⟨a.data, [], by simp⟩

/-- A style's name occurs in its own line of the block. -/
theorem occursIn_styleLine (sd : String × String) : occursIn sd.1 (styleLine sd) := by
  unfold occursIn styleLine
  refine ⟨"  - '".data, "': ".data ++ sd.2.data, ?_⟩
  simp [String.data_append, List.append_assoc]

/-- Every listed style's name occurs in the assembled style block. -/
theorem occursIn_styleBlockOf :
    ∀ {l : List (String × String)} {sd : String × String},
      sd ∈ l → occursIn sd.1 (styleBlockOf l) := by
  intro l
  induction l with
  | nil => intro sd h; cases h
  | cons a rest ih =>
    intro sd h
    rcases List.mem_cons.mp h with rfl | hmem
    · cases rest with
      | nil => exact occursIn_styleLine sd
      | cons b bs =>
        simp only [styleBlockOf]
        exact occursIn_append_left _ (occursIn_append_left _ (occursIn_styleLine sd))
    · cases rest with
      | nil => cases hmem
      | cons b bs =>
        simp only [styleBlockOf]
        exact occursIn_append_right _ (ih hmem)

/-- C5 counterexample: the concept count is not enforced; a completed
thumbnail-prompts call whose response parses to three concepts returns
those three concepts, not a batch of exactly 10. -/
theorem thumbPrompts_count_counterexample :
    generateThumbnailPrompts parseThree (Except.ok (some "resp")) = Except.ok ⟨threeConcepts⟩ ∧
    threeConcepts.length ≠ 10 := by
  refine ⟨?_, by decide⟩
  simp [generateThumbnailPrompts, effectiveText, parseThree]

/-- C5 amended: the request text built by generateThumbnailPrompts
mandates at least one prompt for each of the ten fixed style names (each
of the ten names occurs in the request text), but the returned batch is
not validated: whatever concepts array the response parses to is
returned unchanged, whatever its size or style coverage. -/
theorem thumbPrompts_style_mandate_and_no_validation (analysis : AnalysisResult)
    (parse : String → Except String ThumbResponse) (t : Option String)
    (cs : List ThumbnailConcept)
    (hp : parse (effectiveText t thumbEmptyDefault) = Except.ok ⟨cs⟩) :
    (∀ s ∈ thumbStyles, occursIn s (thumbRequestText analysis)) ∧
    generateThumbnailPrompts parse (Except.ok t) = Except.ok ⟨cs⟩ := by
  constructor
  · intro s hs
    have hex : ∃ sd ∈ thumbStyleLines, sd.1 = s := by
      simpa [thumbStyles] using hs
    rcases hex with ⟨sd, hsd, rfl⟩
    have hblock : occursIn sd.1 thumbStylesBlock := occursIn_styleBlockOf hsd
    unfold thumbRequestText
    exact occursIn_append_left _ (occursIn_append_right _ hblock)
  · simp [generateThumbnailPrompts, hp]

/-- C5 witness: the amended theorem at a concrete parse oracle. -/
theorem thumbPrompts_style_mandate_witness :
    generateThumbnailPrompts parseThree (Except.ok (some "any")) = Except.ok ⟨threeConcepts⟩ :=
  (thumbPrompts_style_mandate_and_no_validation sampleAnalysis parseThree (some "any")
    threeConcepts rfl).2

/-- C6: when the analysis response's text is missing or empty,
analyzeMedia parses the empty-object literal, so with a parse oracle
behaving as the builtin does on that literal the empty object is
returned as the analysis result; a parse failure propagates to the
caller as the stage's failure, as does a rejected round trip. -/
theorem analyzeMedia_empty_text_and_parse_failure {α : Type}
    (parse : String → Except String α) (emptyObj : α)
    (hempty : parse emptyObjectText = Except.ok emptyObj) :
    analyzeMedia parse (Except.ok none) = Except.ok emptyObj ∧
    analyzeMedia parse (Except.ok (some "")) = Except.ok emptyObj ∧
    (∀ (t : Option String) (e : String),
       parse (effectiveText t emptyObjectText) = Except.error e →
       analyzeMedia parse (Except.ok t) = Except.error e) ∧
    (∀ e : String, analyzeMedia (α := α) parse (Except.error e) = Except.error e) := by
  refine ⟨?_, ?_, ?_, fun e => rfl⟩
  · simp [analyzeMedia, effectiveText, hempty]
  · simp [analyzeMedia, effectiveText, hempty]
  · intro t e he
    simp [analyzeMedia, he]

/-- C6 witness: the theorem at a concrete parse oracle recognising only
the empty-object literal. -/
theorem analyzeMedia_empty_text_witness :
    analyzeMedia parseEmptyOnly (Except.ok none) = Except.ok 0 :=
  (analyzeMedia_empty_text_and_parse_failure parseEmptyOnly 0 rfl).1

/-- C7: a render response with no inline image payload fails with the
fixed hard error thrown by the gateway (a distinct error, not a
schema-parse failure), exactly one render call is made (no retry), and
the previously displayed rendered thumbnail is unchanged. -/
theorem renderImage_no_payload (parts : Option (List RenderPart))
    (hno : ∀ q ∈ parts.getD [], q.inlineData = none)
    (st : AppState) (prompt : String) :
    generateNanoBananaImage parts = Except.error "No image generated" ∧
    (handleForgeThumbnail st prompt
        (fun _ => generateNanoBananaImage parts)).1.generatedThumbnail
      = st.generatedThumbnail ∧
    (handleForgeThumbnail st prompt (fun _ => generateNanoBananaImage parts)).2
      = [Call.render prompt] := by
  have hfind : (parts.getD []).find? (fun q => q.inlineData.isSome) = none := by
    rw [List.find?_eq_none]
    intro q hq
    simp [hno q hq]
  have hgen : generateNanoBananaImage parts = Except.error "No image generated" := by
    simp [generateNanoBananaImage, hfind]
  exact ⟨hgen, by simp [handleForgeThumbnail, hgen],
         by simp [handleForgeThumbnail, hgen]⟩

/-- C7 witness: the theorem at a concrete payload-free response and the
initial state. -/
theorem renderImage_no_payload_witness :
    generateNanoBananaImage (some [emptyPart]) = Except.error "No image generated" :=
  (renderImage_no_payload (some [emptyPart]) (by decide) initialState "a prompt").1

/-- C8: with an empty controversies list the interpolated controversy
context is the empty string, so the request text constructed by
generateSEO is the template with nothing in the controversy slot and
carries no controversy topics. -/
theorem seoRequest_no_controversies (analysis : AnalysisResult) (p : Platform)
    (h : analysis.controversies = []) :
    controversyContext analysis = "" ∧
    seoRequestText analysis p = seoPromptPre analysis ++ seoPromptPost p := by
  have hc : controversyContext analysis = "" := by simp [controversyContext, h]
  refine ⟨hc, ?_⟩
  simp [seoRequestText, hc]

/-- C8 witness: the theorem at a concrete controversy-free analysis. -/
theorem seoRequest_no_controversies_witness :
    controversyContext sampleAnalysis = "" :=
  (seoRequest_no_controversies sampleAnalysis Platform.youTube rfl).1

/-- C9: a thumbnail-prompts response with missing or empty text parses
the default `'\x7b"concepts":[]\x7d'` literal and so resolves
successfully with an empty concepts array instead of failing; a run
whose first two stages succeed therefore completes all three stages and
commits to the HistoryLog a RunRecord whose thumbnail-concept batch is
empty. -/
theorem thumbPrompts_empty_text_commits_empty_batch
    (parse : String → Except String ThumbResponse)
    (hp : parse thumbEmptyDefault = Except.ok ⟨[]⟩)
    (st : AppState) (mt : MediaType) (p : Platform) (now : Nat)
    (a : AnalysisResult) (s : SEOData)
    (seoGen : AnalysisResult → Platform → Except String SEOData)
    (hs : seoGen a p = Except.ok s) :
    generateThumbnailPrompts parse (Except.ok none) = Except.ok ⟨[]⟩ ∧
    generateThumbnailPrompts parse (Except.ok (some "")) = Except.ok ⟨[]⟩ ∧
    (processFlow st mt p now (Except.ok a) seoGen
        (fun _ => generateThumbnailPrompts parse (Except.ok none))).1.history
      = insertHistory (mkHistoryItem now mt p a s []) st.history ∧
    (mkHistoryItem now mt p a s []).thumbnailConcepts = some [] := by
  have h1 : generateThumbnailPrompts parse (Except.ok none) = Except.ok ⟨[]⟩ := by
    simp [generateThumbnailPrompts, effectiveText, hp]
  have h2 : generateThumbnailPrompts parse (Except.ok (some "")) = Except.ok ⟨[]⟩ := by
    simp [generateThumbnailPrompts, effectiveText, hp]
  refine ⟨h1, h2, ?_, rfl⟩
  simp [processFlow, hs, h1]

/-- C9 witness: the theorem at concrete oracles, a concrete analysis and
the initial state. -/
theorem thumbPrompts_empty_text_witness :
    generateThumbnailPrompts parseDefaultEmpty (Except.ok none) = Except.ok ⟨[]⟩ :=
  (thumbPrompts_empty_text_commits_empty_batch parseDefaultEmpty rfl
    initialState MediaType.image Platform.youTube 0 sampleAnalysis sampleSeo
    okSeoGen rfl).1

/-- C10: the active prompt is replaced before the render call, so after a
failed forge it holds the failed prompt while the displayed rendered
thumbnail keeps its previous value (the two can then refer to different
concepts); on success the thumbnail is replaced; the forge loading flag
is cleared on both paths. -/
theorem forgeThumbnail_prompt_vs_display (st : AppState) (prompt : String)
    (render : String → Except String String) :
    (handleForgeThumbnail st prompt render).1.genImgLoading = false ∧
    (handleForgeThumbnail st prompt render).1.activePrompt = some prompt ∧
    match render prompt with
    | .error _ =>
        (handleForgeThumbnail st prompt render).1.generatedThumbnail = st.generatedThumbnail
    | .ok img =>
        (handleForgeThumbnail st prompt render).1.generatedThumbnail = some img := by
  cases h : render prompt <;> simp [handleForgeThumbnail, h]
